import Mathlib

/-!
Shallow embedding of the ETL tutorial repository (a single notebook,
src/doc/ETL_Creation_Guide.ipynb).  The notebook shows a luigi
TransformTask class, an example run method that adds a koolaid column
to a csv, and an entry point that invokes the last task of the
Extract -> Transform -> Load chain.  The luigi scheduler, the pandas
operations and the ExtractTask / LoadTask classes are not implemented
in the repository; where a claim depends on them they are modelled
from the spec, faithful to the behaviour the notebook documents.
-/

/-- A cell of a tabular dataset: a present value, or missing (NaN). -/
abbrev Cell := Option String

/-- A pandas style dataframe: named columns and rows of cells. -/
structure DataFrame where
  cols : List String
  rows : List (List Cell)
deriving DecidableEq

/-- Modelled from the spec: pandas column assignment from a list backed
Series aligns by position — each row receives the series entry with its
index, rows beyond the series length receive a missing value; a column
that is already present is overwritten in place, otherwise the new
column is appended after the existing ones. -/
def DataFrame.assign (df : DataFrame) (c : String) (s : List String) : DataFrame :=
  match df.cols.findIdx? (fun x => x == c) with
  | some j =>
    { cols := df.cols,
      rows := df.rows.enum.map (fun p => p.2.set j (s.get? p.1)) }
  | none =>
    { cols := df.cols ++ [c],
      rows := df.rows.enum.map (fun p => p.2 ++ [s.get? p.1]) }

/-- Modelled from the spec: DataFrame.to_csv writes the frame out; with
index true the row index is prepended as an unnamed first column, with
index false no index column is written. -/
def DataFrame.to_csv (df : DataFrame) (index : Bool) : DataFrame :=
  if index then
    { cols := "" :: df.cols,
      rows := df.rows.enum.map (fun p => (some (toString p.1)) :: p.2) }
  else df

/-- Contents of a file: a csv (stored as the frame it encodes) or a
sqlite3 database holding named tables. -/
inductive FileContent
  | csv (df : DataFrame)
  | db (tables : List (String × DataFrame))
deriving DecidableEq

/-- The local file system: each path holds the contents of a file, or
nothing when no file exists at that path. -/
def FS := String → Option FileContent

/-- Writing a file: the path now holds the new contents, every other
path is untouched. -/
def FS.write (fs : FS) (p : String) (v : FileContent) : FS :=
  fun q => if q = p then some v else fs q

/-- The file system in which no file exists. -/
def emptyFS : FS := fun _ => none

/-- luigi.LocalTarget: a target referring to a file on the local file
system by its path. -/
structure LocalTarget where
  path : String
deriving DecidableEq

/-- Modelled from the spec: ExtractTask is referenced by the notebook
TransformTask but never shown; it has no parameters, no requirements,
and a single output target, the fetched csv file. -/
structure ExtractTask where
deriving DecidableEq

def ExtractTask.output (_ : ExtractTask) : LocalTarget :=
  ⟨"titanic.csv"⟩

/-- The notebook TransformTask: one luigi.Parameter named
output_filename whose default value is output.csv. -/
structure TransformTask where
  output_filename : String := "output.csv"
deriving DecidableEq

/-- TransformTask.requires returns ExtractTask(). -/
def TransformTask.requires (_ : TransformTask) : ExtractTask := ⟨⟩

/-- TransformTask.output returns luigi.LocalTarget(self.output_filename). -/
def TransformTask.output (t : TransformTask) : LocalTarget :=
  ⟨t.output_filename⟩

/-- Modelled from the spec: self.input() denotes the output target of
the required task — the notebook comment reads a.k.a
self.requires().output(). -/
def TransformTask.input (t : TransformTask) : LocalTarget :=
  t.requires.output

/-- The notebook example run method: open the input target for reading
and the output target for writing, read the input as a csv frame, add
the koolaid column from the two element Series, and write the result to
the output with index False.  None when the input target does not hold
a readable csv. -/
def TransformTask.run (t : TransformTask) (fs : FS) : Option FS :=
  match fs t.input.path with
  | some (FileContent.csv df) =>
      some (fs.write t.output.path
        (FileContent.csv ((df.assign "koolaid" ["oh", "yeeeeaaahh"]).to_csv false)))
  | _ => none

/-! ## The exercise aggregation (pandas groupby) -/

/-- The values of column c, one cell per row; a row too short to reach
the column counts as missing, and a frame without the column yields no
values. -/
def DataFrame.colValues (df : DataFrame) (c : String) : List Cell :=
  match df.cols.findIdx? (fun x => x == c) with
  | some j => df.rows.map (fun r => (r.get? j).getD none)
  | none => []

/-- Modelled from the spec: groupby(c), select column c, then count() —
one entry per distinct present value of column c (missing keys are
dropped by groupby), paired with the number of rows carrying that
value. -/
def DataFrame.groupbyCount (df : DataFrame) (c : String) : List (Cell × Nat) :=
  ((df.colValues c).dedup.filter (fun v => v.isSome)).map
    (fun v => (v, (df.colValues c).count v))

/-- The number of rows of the frame whose entry in column c is the cell
v. -/
def DataFrame.rowsWith (df : DataFrame) (c : String) (v : Cell) : Nat :=
  match df.cols.findIdx? (fun x => x == c) with
  | some j => df.rows.countP (fun r => (r.get? j).getD none == v)
  | none => 0

/-- Modelled from the spec: the aggregated summary the exercise
transform produces — one row per passenger class with the count of the
passengers in it. -/
def aggFrame (df : DataFrame) : DataFrame :=
  { cols := ["Pclass", "count"],
    rows := (df.groupbyCount "Pclass").map (fun p => [p.1, some (toString p.2)]) }

/-! ## The pipeline and its scheduler -/

/-- The three tasks of the chain. -/
inductive TaskName
  | extract
  | transform
  | load
deriving DecidableEq, Fintype

/-- The requirements each task declares via its requires method:
Transform requires Extract, Load requires Transform, Extract requires
nothing. -/
def requiresOf : TaskName → List TaskName
  | .extract => []
  | .transform => [.extract]
  | .load => [.transform]

/-- Modelled from the spec: the single output target of each task.
TransformTask is the class the notebook shows (default parameter);
ExtractTask and LoadTask are not shown, their targets follow the
exercise — the fetched csv and the local sqlite3 database file. -/
def taskOutput : TaskName → LocalTarget
  | .extract => ExtractTask.output ⟨⟩
  | .transform => ({} : TransformTask).output
  | .load => ⟨"etl.db"⟩

/-- The paths of the output targets of a task. -/
def outputsOf (t : TaskName) : List String :=
  [(taskOutput t).path]

/-- Modelled from the spec: luigi self.input() — the output targets of
the tasks the task requires (the notebook comment: a.k.a
self.requires().output()). -/
def luigiInput (t : TaskName) : List LocalTarget :=
  (requiresOf t).map taskOutput

/-- Modelled from the spec: a task is complete exactly when all of its
output targets exist. -/
def complete (fs : FS) (t : TaskName) : Bool :=
  (outputsOf t).all (fun p => (fs p).isSome)

/-- Modelled from the spec: ExtractTask.run fetches the titanic csv
from the fixed url and writes it to the output target; raw stands for
the fetched dataset. -/
def runExtract (raw : DataFrame) (fs : FS) : FS :=
  fs.write (taskOutput .extract).path (FileContent.csv raw)

/-- Modelled from the spec: the exercise TransformTask.run reads the
extracted csv from its input target, aggregates the passenger counts
per class, and writes the aggregate to its output target.  luigi only
invokes run once the required outputs exist, so the fallthrough branch
is never reached in a scheduled execution. -/
def runTransform (fs : FS) : FS :=
  match fs (taskOutput .extract).path with
  | some (FileContent.csv df) =>
      fs.write (taskOutput .transform).path (FileContent.csv (aggFrame df))
  | _ => fs

/-- Modelled from the spec: LoadTask.run reads the aggregated csv and
inserts its rows, via pandas to_sql, as a table of the local sqlite3
database file. -/
def runLoad (fs : FS) : FS :=
  match fs (taskOutput .transform).path with
  | some (FileContent.csv df) =>
      let tables := match fs (taskOutput .load).path with
        | some (FileContent.db ts) => ts
        | _ => []
      fs.write (taskOutput .load).path (FileContent.db (tables ++ [("aggregate", df)]))
  | _ => fs

/-- The run method of each task, as an effect on the file system. -/
def runTask (raw : DataFrame) : TaskName → FS → FS
  | .extract => runExtract raw
  | .transform => runTransform
  | .load => runLoad

/-- Modelled from the spec: the luigi local scheduler considers
ExtractTask — when all its outputs exist the task is skipped, otherwise
its run method is invoked and appended to the trace of invoked tasks. -/
def schedExtract (raw : DataFrame) (p : FS × List TaskName) : FS × List TaskName :=
  if complete p.1 .extract then p
  else (runExtract raw p.1, p.2 ++ [.extract])

/-- Modelled from the spec: the scheduler considers TransformTask —
when its outputs all exist it is skipped together with its
requirements, otherwise every required task is first brought to
completion and only then is the run method invoked. -/
def schedTransform (raw : DataFrame) (p : FS × List TaskName) : FS × List TaskName :=
  if complete p.1 .transform then p
  else
    (runTransform (schedExtract raw p).1, (schedExtract raw p).2 ++ [.transform])

/-- Modelled from the spec: the scheduler considers LoadTask, the last
task of the chain, the same way. -/
def schedLoad (raw : DataFrame) (p : FS × List TaskName) : FS × List TaskName :=
  if complete p.1 .load then p
  else
    (runLoad (schedTransform raw p).1, (schedTransform raw p).2 ++ [.load])

/-- The scheduler entry for each task. -/
def schedOf : TaskName → DataFrame → FS × List TaskName → FS × List TaskName
  | .extract => schedExtract
  | .transform => schedTransform
  | .load => schedLoad

/-- Modelled from the spec: the script entry point — luigi.run on the
last task, LoadTask, with the local scheduler.  It returns the final
file system and the trace of the tasks whose run method was invoked,
in invocation order. -/
def mainEntry (raw : DataFrame) (fs : FS) : FS × List TaskName :=
  schedLoad raw (fs, [])

/-- Modelled from the spec: single threaded execution — each invoked
run method begins and runs to completion before the next one begins. -/
inductive RunEvent
  | started (t : TaskName)
  | finished (t : TaskName)
deriving DecidableEq

/-- The event stream of a sequential trace: each task contributes its
start followed directly by its finish. -/
def events (tr : List TaskName) : List RunEvent :=
  tr.flatMap (fun t => [RunEvent.started t, RunEvent.finished t])

/-- How many run methods are in progress after a stream of events. -/
def openCount (evs : List RunEvent) : Nat :=
  evs.countP (fun e => match e with | .started _ => true | _ => false) -
    evs.countP (fun e => match e with | .finished _ => true | _ => false)

/-! ## Concrete sample data -/

/-- A small concrete titanic style frame, used to instantiate the
theorems on a concrete input. -/
def sampleFrame : DataFrame :=
  ⟨["Pclass"], [[some "3"], [some "1"], [some "3"]]⟩

/-- A small frame without a koolaid column. -/
def plainFrame : DataFrame :=
  ⟨["a"], [[some "x"], [some "y"], [some "z"]]⟩

/-- A file system holding only the extracted csv. -/
def sampleFS : FS :=
  FS.write emptyFS "titanic.csv" (FileContent.csv plainFrame)

/-! ## Theorems -/

/-- Helper: the four possible traces of an invocation of the entry
point, depending on which tasks are already complete. -/
theorem mainEntry_trace_cases (raw : DataFrame) (fs : FS) :
    (mainEntry raw fs).2 = [] ∨ (mainEntry raw fs).2 = [.load] ∨
    (mainEntry raw fs).2 = [.transform, .load] ∨
    (mainEntry raw fs).2 = [.extract, .transform, .load] := by
  by_cases h1 : complete fs .load
  · left
    simp [mainEntry, schedLoad, h1]
  · by_cases h2 : complete fs .transform
    · right; left
      simp [mainEntry, schedLoad, schedTransform, h1, h2]
    · by_cases h3 : complete fs .extract
      · right; right; left
        simp [mainEntry, schedLoad, schedTransform, schedExtract, h1, h2, h3]
      · right; right; right
        simp [mainEntry, schedLoad, schedTransform, schedExtract, h1, h2, h3]

/-- Helper: when LoadTask is already complete the entry point does
nothing at all. -/
theorem mainEntry_of_complete (raw : DataFrame) (fs : FS)
    (h : complete fs .load = true) : mainEntry raw fs = (fs, []) := by
  simp [mainEntry, schedLoad, h]

/-- Helper: looking a key up in a list that pairs each key with a value
computed from it. -/
theorem lookup_map_pair (f : Cell → Nat) (l : List Cell) (v : Cell) (h : v ∈ l) :
    List.lookup v (l.map (fun u => (u, f u))) = some (f v) := by
  induction l with
  | nil => cases h
  | cons a l ih =>
    by_cases hv : v = a
    · subst hv
      simp [List.lookup]
    · rcases List.mem_cons.mp h with h1 | h1
      · exact absurd h1 hv
      · have hb : (v == a) = false := beq_eq_false_iff_ne.mpr hv
        simpa [List.lookup, hb] using ih h1

/-- C9: TransformTask.output() always returns a LocalTarget whose path
is the output_filename parameter, and the parameter defaults to
output.csv. -/
theorem transformTask_output_target (t : TransformTask) :
    t.output = ⟨t.output_filename⟩ ∧
    ({} : TransformTask).output_filename = "output.csv" :=
  ⟨rfl, rfl⟩

/-- C8: for every task with a single requirement, self.input() is
self.requires().output(); in particular the target TransformTask reads
is the output target of ExtractTask, the very file ExtractTask
produces. -/
theorem input_equals_required_output :
    (∀ t t' : TaskName, requiresOf t = [t'] → luigiInput t = [taskOutput t']) ∧
    (∀ t : TransformTask, t.input = t.requires.output) ∧
    luigiInput .transform = [ExtractTask.output ⟨⟩] ∧
    (∀ raw fs, (runExtract raw fs) (({} : TransformTask).input.path) =
      some (FileContent.csv raw)) := by
  refine ⟨?_, fun t => rfl, rfl, ?_⟩
  · intro t t' h
    simp [luigiInput, h]
  · intro raw fs
    simp [runExtract, FS.write, taskOutput, ExtractTask.output,
      TransformTask.input, TransformTask.requires]

/-- Witness for C8 at the concrete task with a single requirement. -/
theorem input_equals_required_output_witness :
    requiresOf .transform = [.extract] ∧ luigiInput .transform = [taskOutput .extract] :=
  ⟨by decide, input_equals_required_output.1 .transform .extract (by decide)⟩

/-- C4: the example run method reads its input target and writes its
output target — when the two targets differ, the input file and every
file other than the output are unchanged, and the entire effect is the
transformed frame written at the output target. -/
theorem run_pure_read_compute_write (t : TransformTask) (fs : FS) (df : DataFrame)
    (hne : t.input.path ≠ t.output.path)
    (hin : fs t.input.path = some (FileContent.csv df)) :
    ∃ fs', t.run fs = some fs' ∧
      fs' t.input.path = fs t.input.path ∧
      (∀ p, p ≠ t.output.path → fs' p = fs p) ∧
      fs' t.output.path =
        some (FileContent.csv ((df.assign "koolaid" ["oh", "yeeeeaaahh"]).to_csv false)) := by
  refine ⟨fs.write t.output.path
    (FileContent.csv ((df.assign "koolaid" ["oh", "yeeeeaaahh"]).to_csv false)),
    ?_, ?_, ?_, ?_⟩
  · simp [TransformTask.run, hin]
  · simp [FS.write, hne]
  · intro p hp
    simp [FS.write, hp]
  · simp [FS.write]

/-- Witness for C4 on a concrete file system. -/
theorem run_pure_read_compute_write_witness :
    (({} : TransformTask).input.path ≠ ({} : TransformTask).output.path ∧
      sampleFS (({} : TransformTask).input.path) = some (FileContent.csv plainFrame)) ∧
    (∃ fs', ({} : TransformTask).run sampleFS = some fs' ∧
      fs' (({} : TransformTask).input.path) = sampleFS (({} : TransformTask).input.path) ∧
      (∀ p, p ≠ ({} : TransformTask).output.path → fs' p = sampleFS p) ∧
      fs' (({} : TransformTask).output.path) =
        some (FileContent.csv
          ((plainFrame.assign "koolaid" ["oh", "yeeeeaaahh"]).to_csv false))) :=
  ⟨⟨by decide, by decide⟩,
    run_pure_read_compute_write {} sampleFS plainFrame (by decide) (by decide)⟩

/-- C1: invoking the entry point on the last task runs the tasks in
dependency order — every trace is a subsequence of Extract, Transform,
Load, and on a fresh file system the trace is exactly Extract, then
Transform, then Load. -/
theorem tasks_run_in_dependency_order (raw : DataFrame) (fs : FS) :
    List.Sublist (mainEntry raw fs).2 [.extract, .transform, .load] ∧
    (mainEntry raw emptyFS).2 = [.extract, .transform, .load] := by
  constructor
  · rcases mainEntry_trace_cases raw fs with h | h | h | h <;> rw [h] <;> decide
  · rfl

/-- C2: a task is complete exactly when all of its output targets
exist, and the scheduler invokes the run method of the task it
considers exactly when some output target of that task does not
exist. -/
theorem complete_iff_outputs_exist (raw : DataFrame) (fs : FS) :
    (∀ t, complete fs t = true ↔ ∀ p ∈ outputsOf t, (fs p).isSome = true) ∧
    (∀ t, t ∈ (schedOf t raw (fs, [])).2 ↔ complete fs t = false) := by
  constructor
  · intro t
    simp [complete, List.all_eq_true]
  · intro t
    cases t with
    | extract =>
      by_cases h : complete fs .extract <;>
        simp_all [schedOf, schedExtract, Bool.not_eq_true]
    | transform =>
      by_cases h : complete fs .transform
      · simp_all [schedOf, schedTransform]
      · by_cases h3 : complete fs .extract <;>
          simp_all [schedOf, schedTransform, schedExtract, Bool.not_eq_true]
    | load =>
      by_cases h : complete fs .load
      · simp_all [schedOf, schedLoad]
      · by_cases h2 : complete fs .transform
        · simp_all [schedOf, schedLoad, schedTransform, Bool.not_eq_true]
        · by_cases h3 : complete fs .extract <;>
            simp_all [schedOf, schedLoad, schedTransform, schedExtract, Bool.not_eq_true]

/-- C5: execution is single threaded and retry free — in the event
stream of every execution at most one run method is in progress at any
point, and no task is invoked more than once. -/
theorem execution_single_threaded_no_retry (raw : DataFrame) (fs : FS) :
    (∀ p ∈ (events (mainEntry raw fs).2).inits, openCount p ≤ 1) ∧
    (∀ t : TaskName, List.count t (mainEntry raw fs).2 ≤ 1) := by
  rcases mainEntry_trace_cases raw fs with h | h | h | h <;> rw [h] <;>
    exact ⟨by decide, by decide⟩

/-- C6: once every task output exists, invoking the entry point again
runs no task and leaves every file unchanged. -/
theorem rerun_after_complete_is_noop (raw : DataFrame) (fs : FS)
    (h : ∀ t, complete ((mainEntry raw fs).1) t = true) :
    (mainEntry raw ((mainEntry raw fs).1)).2 = [] ∧
    ∀ p, (mainEntry raw ((mainEntry raw fs).1)).1 p = (mainEntry raw fs).1 p := by
  rw [mainEntry_of_complete raw ((mainEntry raw fs).1) (h .load)]
  exact ⟨rfl, fun p => rfl⟩

/-- Witness for C6: after the pipeline runs on the empty file system
every output exists, and the second invocation is a no-op. -/
theorem rerun_after_complete_is_noop_witness :
    (∀ t, complete ((mainEntry sampleFrame emptyFS).1) t = true) ∧
    ((mainEntry sampleFrame ((mainEntry sampleFrame emptyFS).1)).2 = [] ∧
      ∀ p, (mainEntry sampleFrame ((mainEntry sampleFrame emptyFS).1)).1 p =
        (mainEntry sampleFrame emptyFS).1 p) :=
  ⟨by decide, rerun_after_complete_is_noop sampleFrame emptyFS (by decide)⟩

/-- C7: a pipeline execution from a fresh file system ends with the
rows of the aggregated frame inserted as a table of the database held
in the local file etl.db — the only store involved is a path of the
local file system. -/
theorem load_inserts_aggregate_into_local_db (raw : DataFrame) :
    (mainEntry raw emptyFS).1 (taskOutput .load).path =
      some (FileContent.db [("aggregate", aggFrame raw)]) ∧
    (taskOutput .load).path = "etl.db" :=
  ⟨rfl, rfl⟩

/-- C3: grouping on Pclass, selecting the Pclass column and counting
maps each distinct Pclass value to the number of input rows carrying
that value. -/
theorem groupby_maps_class_to_row_count (df : DataFrame) (v : Cell)
    (hc : "Pclass" ∈ df.cols) (hv : v ∈ df.colValues "Pclass") (hs : v.isSome = true) :
    List.lookup v (df.groupbyCount "Pclass") = some (df.rowsWith "Pclass" v) := by
  have hmem : v ∈ ((df.colValues "Pclass").dedup.filter (fun u => u.isSome)) :=
    List.mem_filter.mpr ⟨List.mem_dedup.mpr hv, hs⟩
  unfold DataFrame.groupbyCount
  rw [lookup_map_pair _ _ _ hmem]
  congr 1
  cases hj : df.cols.findIdx? (fun x => x == "Pclass") with
  | none =>
    exfalso
    rw [List.findIdx?_eq_none_iff] at hj
    have h2 := hj "Pclass" hc
    simp at h2
  | some j =>
    simp [DataFrame.colValues, DataFrame.rowsWith, hj, List.count, Function.comp_def]

/-- Witness for C3 at a concrete frame and class. -/
theorem groupby_maps_class_to_row_count_witness :
    ("Pclass" ∈ sampleFrame.cols ∧ some "3" ∈ sampleFrame.colValues "Pclass" ∧
      (some "3" : Cell).isSome = true) ∧
    List.lookup (some "3") (sampleFrame.groupbyCount "Pclass") =
      some (sampleFrame.rowsWith "Pclass" (some "3")) :=
  ⟨⟨by decide, by decide, by decide⟩,
    groupby_maps_class_to_row_count sampleFrame (some "3") (by decide) (by decide) (by decide)⟩

/-- C10: on a frame without a koolaid column, the frame the example run
method writes has exactly the input columns plus the new koolaid column
and no index column, keeps every original row unchanged, and the
koolaid cell holds oh in the first row, yeeeeaaahh in the second, and
is missing in every later row. -/
theorem run_output_adds_koolaid_column (df : DataFrame) (h : "koolaid" ∉ df.cols) :
    ((df.assign "koolaid" ["oh", "yeeeeaaahh"]).to_csv false).cols = df.cols ++ ["koolaid"] ∧
    ((df.assign "koolaid" ["oh", "yeeeeaaahh"]).to_csv false).rows.length = df.rows.length ∧
    ∀ i r, df.rows[i]? = some r →
      ((df.assign "koolaid" ["oh", "yeeeeaaahh"]).to_csv false).rows[i]? =
        some (r ++ [if i = 0 then some "oh" else if i = 1 then some "yeeeeaaahh" else none]) := by
  have hf : df.cols.findIdx? (fun x => x == "koolaid") = none := by
    rw [List.findIdx?_eq_none_iff]
    intro x hx
    by_cases hxe : x = "koolaid"
    · exact absurd (hxe ▸ hx) h
    · exact beq_eq_false_iff_ne.mpr hxe
  refine ⟨?_, ?_, ?_⟩
  · simp [DataFrame.assign, DataFrame.to_csv, hf]
  · simp [DataFrame.assign, DataFrame.to_csv, hf]
  · intro i r hr
    have key : ((df.assign "koolaid" ["oh", "yeeeeaaahh"]).to_csv false).rows[i]? =
        some (r ++ [["oh", "yeeeeaaahh"][i]?]) := by
      simp [DataFrame.assign, DataFrame.to_csv, hf, List.getElem?_map,
        List.getElem?_enum, hr]
    rw [key]
    match i with
    | 0 => rfl
    | 1 => rfl
    | (n + 2) => rfl

/-- Witness for C10 on a concrete three row frame. -/
theorem run_output_adds_koolaid_column_witness :
    ("koolaid" ∉ plainFrame.cols) ∧
    (((plainFrame.assign "koolaid" ["oh", "yeeeeaaahh"]).to_csv false).cols =
        plainFrame.cols ++ ["koolaid"] ∧
      ((plainFrame.assign "koolaid" ["oh", "yeeeeaaahh"]).to_csv false).rows.length =
        plainFrame.rows.length ∧
      ∀ i r, plainFrame.rows[i]? = some r →
        ((plainFrame.assign "koolaid" ["oh", "yeeeeaaahh"]).to_csv false).rows[i]? =
          some (r ++ [if i = 0 then some "oh" else if i = 1 then some "yeeeeaaahh" else none])) :=
  ⟨by decide, run_output_adds_koolaid_column plainFrame (by decide)⟩
